import Mathlib

/-!
# TwineLine.ai site configuration

A shallow embedding of `astro.config.mjs`, the single source file of the
repository.  The file is one expression: an object literal handed to the
framework entry point `defineConfig` and exported.  The literal activates two
integrations (`starlight({...})` and `vue()`), one Vite plugin
(`tailwindcss()`) and one deployment adapter (`cloudflare()`).

The calls into the framework are represented by what the source writes: the
name of the activated integration together with the option record passed to
it.  Nothing the framework does after it has received the record (content
discovery, routing, schema checks at build time) is part of the source, and
nothing of it is modelled here.
-/

namespace TwineLine

/-! ## Data model: the shapes of the object literals in the source -/

/-- The `logo` record of the Starlight options. -/
structure Logo where
  light : String
  dark : String
  replacesTitle : Bool
  deriving DecidableEq, Repr

/-- One entry of the `social` array: `{ icon, label, href }`. -/
structure SocialLink where
  icon : String
  label : String
  href : String
  deriving DecidableEq, Repr

/-- A sidebar leaf written in the source as `{ label, slug }`. -/
structure LeafPage where
  label : String
  slug : String
  deriving DecidableEq, Repr

/-- A top-level sidebar entry.  The source writes two shapes: a group that
lists its pages (`{ label, items: [...] }`) and a group whose pages the
framework derives from a content directory
(`{ label, autogenerate: { directory } }`). -/
inductive SidebarGroup where
  | items (label : String) (items : List LeafPage)
  | autogenerate (label : String) (directory : String)
  deriving DecidableEq, Repr

/-- The option record passed to `starlight({...})`. -/
structure StarlightUserConfig where
  title : String
  logo : Logo
  social : List SocialLink
  sidebar : List SidebarGroup
  customCss : List String
  deriving DecidableEq, Repr

/-- An entry of the `integrations` array: the integration that is activated
and the options it is activated with. -/
inductive Integration where
  | starlight (opts : StarlightUserConfig)
  | vue
  deriving DecidableEq, Repr

/-- An entry of `vite.plugins`. -/
inductive VitePlugin where
  | tailwindcss
  deriving DecidableEq, Repr

/-- The `vite` record. -/
structure ViteConfig where
  plugins : List VitePlugin
  deriving DecidableEq, Repr

/-- The value of `adapter`: the source selects exactly one. -/
inductive Adapter where
  | cloudflare
  deriving DecidableEq, Repr

/-- The object literal handed to `defineConfig`. -/
structure AstroUserConfig where
  site : String
  integrations : List Integration
  vite : ViteConfig
  adapter : Adapter
  deriving DecidableEq, Repr

/-! ## The source, literal by literal -/

/-- Lines 20-22: the `social` array. -/
def social : List SocialLink :=
  [ { icon := "github", label := "GitHub", href := "https://github.com/twineline" } ]

/-- Lines 23-39: the `sidebar` array. -/
def sidebar : List SidebarGroup :=
  [ SidebarGroup.items "Getting Started"
      [ { label := "Introduction", slug := "introduction" },
        { label := "Quick Start", slug := "quickstart" } ],
    SidebarGroup.autogenerate "Guides" "guides",
    SidebarGroup.autogenerate "Reference" "reference" ]

/-- Line 40: the `customCss` array. -/
def customCss : List String :=
  [ "./src/styles/global.css" ]

/-- Line 10: the canonical site URL. -/
def site : String :=
  "https://twineline.ai"

/-- Lines 13-41: the record passed to `starlight({...})`, as a function of
the three arrays it declares. -/
def starlightOptions (social : List SocialLink) (sidebar : List SidebarGroup)
    (customCss : List String) : StarlightUserConfig :=
  { title := "TwineLine.ai",
    logo := { light := "./src/assets/logo-light.svg",
              dark := "./src/assets/logo-dark.svg",
              replacesTitle := false },
    social := social,
    sidebar := sidebar,
    customCss := customCss }

/-- Lines 9-50: the object literal of the module, as a function of the site
URL and of the three arrays declared inside the Starlight options. -/
def document (site : String) (social : List SocialLink) (sidebar : List SidebarGroup)
    (customCss : List String) : AstroUserConfig :=
  { site := site,
    integrations := [ Integration.starlight (starlightOptions social sidebar customCss),
                      Integration.vue ],
    vite := { plugins := [ VitePlugin.tailwindcss ] },
    adapter := Adapter.cloudflare }

/-- The framework entry point the literal is handed to.  The source imports
it from `astro/config` and uses it only to receive the record and to give it
back as the default export of the module, which is what this definition does.
The source has no statement between the literal and the export that
inspects, rejects or rewrites a field. -/
def defineConfig (config : AstroUserConfig) : AstroUserConfig :=
  config

/-- Lines 9-50: the default export of the module. -/
def astroConfig : AstroUserConfig :=
  defineConfig (document site social sidebar customCss)

/-- The error named by the site contract for a rejected document: a duplicate
slug, or a field holding a malformed URL.  The source has no place that
raises it. -/
inductive ConfigurationError where
  | duplicateSlug (slug : String)
  | malformedUrl (field : String)
  deriving DecidableEq, Repr

/-- Loading a declared document: what the module exports when its literal is
`declared`.  The module evaluates the literal and hands it to `defineConfig`;
it has no `throw`, no guard and no check, so the result is always a
configuration. -/
def load (declared : AstroUserConfig) : Except ConfigurationError AstroUserConfig :=
  Except.ok (defineConfig declared)

/-! ## Reading the loaded configuration -/

/-- The option records of the Starlight activations among the integrations,
in the order of the `integrations` array. -/
def starlightActivations : List Integration → List StarlightUserConfig
  | [] => []
  | Integration.starlight opts :: rest => opts :: starlightActivations rest
  | Integration.vue :: rest => starlightActivations rest

/-- The social links a configuration exposes: those of each Starlight
activation, in order. -/
def loadedSocial (config : AstroUserConfig) : List SocialLink :=
  (starlightActivations config.integrations).foldr (fun o acc => o.social ++ acc) []

/-- The navigation tree a configuration exposes. -/
def loadedSidebar (config : AstroUserConfig) : List SidebarGroup :=
  (starlightActivations config.integrations).foldr (fun o acc => o.sidebar ++ acc) []

/-- The global style sheet paths a configuration exposes. -/
def loadedCustomCss (config : AstroUserConfig) : List String :=
  (starlightActivations config.integrations).foldr (fun o acc => o.customCss ++ acc) []

/-- The label of a top-level sidebar entry. -/
def SidebarGroup.label : SidebarGroup → String
  | SidebarGroup.items l _ => l
  | SidebarGroup.autogenerate l _ => l

/-- The leaf pages a group enumerates itself; an autogenerated group
enumerates none. -/
def SidebarGroup.leaves : SidebarGroup → List LeafPage
  | SidebarGroup.items _ ps => ps
  | SidebarGroup.autogenerate _ _ => []

/-- Whether the group is an autogenerated one. -/
def SidebarGroup.isAutogenerated : SidebarGroup → Bool
  | SidebarGroup.items _ _ => false
  | SidebarGroup.autogenerate _ _ => true

/-- Every leaf page of a navigation tree, top to bottom. -/
def allLeaves : List SidebarGroup → List LeafPage
  | [] => []
  | g :: gs => g.leaves ++ allLeaves gs

/-- The content directories of the autogenerated groups, top to bottom. -/
def autogenerateDirectories : List SidebarGroup → List String
  | [] => []
  | SidebarGroup.items _ _ :: gs => autogenerateDirectories gs
  | SidebarGroup.autogenerate _ d :: gs => d :: autogenerateDirectories gs

/-- The content directory each autogenerated group is bound to, as pairs of
group label and directory, top to bottom. -/
def autogenerateBindings : List SidebarGroup → List (String × String)
  | [] => []
  | SidebarGroup.items _ _ :: gs => autogenerateBindings gs
  | SidebarGroup.autogenerate l d :: gs => (l, d) :: autogenerateBindings gs

/-! ## Properties the claims speak about -/

/-- No two leaf pages of the list have equal slugs. -/
def DistinctSlugs (pages : List LeafPage) : Prop :=
  pages.Pairwise (fun a b => a.slug ≠ b.slug)

instance (pages : List LeafPage) : Decidable (DistinctSlugs pages) := by
  unfold DistinctSlugs; infer_instance

/-- The slug is used by at least two leaf pages of one and the same group. -/
def UsedTwiceUnderOneGroup (slug : String) (tree : List SidebarGroup) : Prop :=
  ∃ g ∈ tree, 2 ≤ (g.leaves.map LeafPage.slug).count slug

instance (slug : String) (tree : List SidebarGroup) :
    Decidable (UsedTwiceUnderOneGroup slug tree) := by
  unfold UsedTwiceUnderOneGroup; infer_instance

/-- Characters allowed in a URL scheme after its first letter. -/
def isSchemeChar (c : Char) : Bool :=
  c.isAlphanum || c == '+' || c == '-' || c == '.'

/-- Splits a text at its first `://` into what stands before and after it. -/
def splitAtSchemeSeparator : List Char → Option (List Char × List Char)
  | [] => none
  | c :: cs =>
    if c = ':' ∧ cs.take 2 = ['/', '/'] then some ([], cs.drop 2)
    else (splitAtSchemeSeparator cs).map (fun sr => (c :: sr.1, sr.2))

/-- A scheme is a letter followed by scheme characters. -/
def isWellFormedScheme : List Char → Bool
  | [] => false
  | c :: cs => c.isAlpha && cs.all isSchemeChar

/-- The host part of what follows `://`: everything up to the first `/`,
`?` or `#`. -/
def hostOf (rest : List Char) : List Char :=
  rest.takeWhile (fun c => c != '/' && c != '?' && c != '#')

/-- A well-formed absolute URL: a scheme, then `://`, then a non-empty
host. -/
def isWellFormedUrl (s : String) : Bool :=
  match splitAtSchemeSeparator s.toList with
  | none => false
  | some (scheme, rest) => isWellFormedScheme scheme && !(hostOf rest).isEmpty

/-! ## Documents used as concrete inputs -/

/-- A sidebar that lists the slug `introduction` twice under the first
group. -/
def sidebarWithDuplicate : List SidebarGroup :=
  [ SidebarGroup.items "Getting Started"
      [ { label := "Introduction", slug := "introduction" },
        { label := "Overview", slug := "introduction" } ],
    SidebarGroup.autogenerate "Guides" "guides",
    SidebarGroup.autogenerate "Reference" "reference" ]

/-- The document of the source with the duplicate sidebar in place of the
declared one. -/
def documentWithDuplicate : AstroUserConfig :=
  document site social sidebarWithDuplicate customCss

/-- The document of the source with the href of its social link replaced by
`not-a-url`. -/
def documentWithBadHref : AstroUserConfig :=
  document site [ { icon := "github", label := "GitHub", href := "not-a-url" } ]
    sidebar customCss

/-! ## Helper lemmas -/

/-- A text of the form `d/rest` has `d/` as a prefix of its characters. -/
theorem isPrefixOf_of_eq_append (s d rest : String) (h : s = d ++ "/" ++ rest) :
    (d.toList ++ ['/']).isPrefixOf s.toList = true := by
  subst h
  simp [String.toList, String.data_append]

/-- Loading never fails: the module hands every literal on as it is. -/
theorem load_eq_ok (declared : AstroUserConfig) : load declared = Except.ok declared :=
  rfl

/-- The social links read back from a document are the declared ones. -/
theorem loadedSocial_document (u : String) (s : List SocialLink) (t : List SidebarGroup)
    (c : List String) : loadedSocial (document u s t c) = s := by
  simp [loadedSocial, document, starlightActivations, starlightOptions]

/-- The style paths read back from a document are the declared ones. -/
theorem loadedCustomCss_document (u : String) (s : List SocialLink) (t : List SidebarGroup)
    (c : List String) : loadedCustomCss (document u s t c) = c := by
  simp [loadedCustomCss, document, starlightActivations, starlightOptions]

/-- The navigation tree read back from a document is the declared one. -/
theorem loadedSidebar_document (u : String) (s : List SocialLink) (t : List SidebarGroup)
    (c : List String) : loadedSidebar (document u s t c) = t := by
  simp [loadedSidebar, document, starlightActivations, starlightOptions]

/-! ## Theorems -/

/-- C1: the sidebar of the loaded configuration is one sequence of exactly
three groups labelled Getting Started, Guides, Reference in this order; the
first lists exactly Introduction at introduction and then Quick Start at
quickstart; the other two are autogenerated and enumerate no leaf. -/
theorem C1_sidebar_shape :
    loadedSidebar astroConfig
        = [ SidebarGroup.items "Getting Started"
              [ LeafPage.mk "Introduction" "introduction",
                LeafPage.mk "Quick Start" "quickstart" ],
            SidebarGroup.autogenerate "Guides" "guides",
            SidebarGroup.autogenerate "Reference" "reference" ]
    ∧ (loadedSidebar astroConfig).length = 3
    ∧ (loadedSidebar astroConfig).map SidebarGroup.label
        = ["Getting Started", "Guides", "Reference"]
    ∧ (loadedSidebar astroConfig).map (fun g => g.leaves.map (fun p => (p.label, p.slug)))
        = [[("Introduction", "introduction"), ("Quick Start", "quickstart")], [], []]
    ∧ (loadedSidebar astroConfig).map SidebarGroup.isAutogenerated = [false, true, true] := by
  refine ⟨?_, ?_, ?_, ?_, ?_⟩ <;> rfl

/-- C2: in the navigation tree of the loaded configuration, no two leaf pages
that share a parent group have equal slugs. -/
theorem C2_sibling_slugs_distinct :
    ∀ g ∈ loadedSidebar astroConfig, DistinctSlugs g.leaves := by
  decide

/-- C2, at the group Getting Started. -/
theorem C2_sibling_slugs_distinct_witness :
    DistinctSlugs
      [ LeafPage.mk "Introduction" "introduction", LeafPage.mk "Quick Start" "quickstart" ] :=
  C2_sibling_slugs_distinct
    (SidebarGroup.items "Getting Started"
      [ LeafPage.mk "Introduction" "introduction", LeafPage.mk "Quick Start" "quickstart" ])
    (by decide)

/-- C3, refuted as stated: the document that lists the slug introduction twice
under its first group loads without any error, and the loaded tree still
holds both occurrences. -/
theorem C3_duplicate_slug_counterexample :
    UsedTwiceUnderOneGroup "introduction" (loadedSidebar documentWithDuplicate)
    ∧ load documentWithDuplicate = Except.ok documentWithDuplicate
    ∧ ¬ ∃ e, load documentWithDuplicate = Except.error e := by
  refine ⟨by decide, rfl, ?_⟩
  rintro ⟨e, he⟩
  cases he

/-- C3, amended: for every document in which the slug introduction is used by
two leaf pages of one group, the module raises no error; it yields a
configuration whose navigation tree is the declared one, with the slug still
used twice under one group (no occurrence is dropped). -/
theorem C3_duplicate_slug_passes_through (doc : AstroUserConfig)
    (h : UsedTwiceUnderOneGroup "introduction" (loadedSidebar doc)) :
    ∃ c, load doc = Except.ok c
      ∧ loadedSidebar c = loadedSidebar doc
      ∧ UsedTwiceUnderOneGroup "introduction" (loadedSidebar c) :=
  ⟨doc, rfl, rfl, h⟩

/-- C3 amended, at the document with the duplicate sidebar. -/
theorem C3_duplicate_slug_passes_through_witness :
    UsedTwiceUnderOneGroup "introduction" (loadedSidebar documentWithDuplicate)
    ∧ ∃ c, load documentWithDuplicate = Except.ok c
      ∧ loadedSidebar c = loadedSidebar documentWithDuplicate
      ∧ UsedTwiceUnderOneGroup "introduction" (loadedSidebar c) :=
  ⟨by decide, C3_duplicate_slug_passes_through documentWithDuplicate (by decide)⟩

/-- C4, refuted as stated: the document whose social link has the href
not-a-url, which is not a well-formed URL, loads without any error. -/
theorem C4_bad_href_counterexample :
    (∃ l ∈ loadedSocial documentWithBadHref,
        l.href = "not-a-url" ∧ isWellFormedUrl l.href = false)
    ∧ load documentWithBadHref = Except.ok documentWithBadHref
    ∧ ¬ ∃ e, load documentWithBadHref = Except.error e := by
  refine ⟨by decide, rfl, ?_⟩
  rintro ⟨e, he⟩
  cases he

/-- C4, amended: for every document that contains a social link whose href is
not a well-formed URL, the module raises no error; it yields a configuration
whose social links are the declared ones, the malformed href included. -/
theorem C4_bad_href_passes_through (doc : AstroUserConfig)
    (h : ∃ l ∈ loadedSocial doc, isWellFormedUrl l.href = false) :
    ∃ c, load doc = Except.ok c
      ∧ loadedSocial c = loadedSocial doc
      ∧ ∃ l ∈ loadedSocial c, isWellFormedUrl l.href = false :=
  ⟨doc, rfl, rfl, h⟩

/-- C4 amended, at the document with the href not-a-url. -/
theorem C4_bad_href_passes_through_witness :
    (∃ l ∈ loadedSocial documentWithBadHref, isWellFormedUrl l.href = false)
    ∧ ∃ c, load documentWithBadHref = Except.ok c
      ∧ loadedSocial c = loadedSocial documentWithBadHref
      ∧ ∃ l ∈ loadedSocial c, isWellFormedUrl l.href = false :=
  ⟨by decide, C4_bad_href_passes_through documentWithBadHref (by decide)⟩

/-- C5: in the loaded configuration the canonical site URL is a well-formed
absolute URL, and so is the href of every declared social link. -/
theorem C5_urls_well_formed :
    isWellFormedUrl astroConfig.site = true
    ∧ ∀ l ∈ loadedSocial astroConfig, isWellFormedUrl l.href = true := by
  decide

/-- C5, at the GitHub link. -/
theorem C5_urls_well_formed_witness :
    isWellFormedUrl "https://github.com/twineline" = true :=
  C5_urls_well_formed.2 (SocialLink.mk "github" "GitHub" "https://github.com/twineline")
    (by decide)

/-- C6: no two leaf pages anywhere in the navigation tree of the loaded
configuration have equal slugs, whether or not they share a parent group. -/
theorem C6_slugs_distinct_in_tree :
    DistinctSlugs (allLeaves (loadedSidebar astroConfig)) := by
  decide

/-- C7: the autogenerated groups of the loaded sidebar name exactly the
content directories guides and reference, in this order, the group Guides
bound to guides and the group Reference bound to reference. -/
theorem C7_autogenerate_directories :
    autogenerateDirectories (loadedSidebar astroConfig) = ["guides", "reference"]
    ∧ autogenerateBindings (loadedSidebar astroConfig)
        = [("Guides", "guides"), ("Reference", "reference")] := by
  constructor <;> rfl

/-- C8: for every declared sequence of social links and every declared
sequence of style paths, loading succeeds and the sequences read from the
loaded configuration are the declared ones, element for element; in
particular the loaded social list is the single GitHub link and the loaded
style path list is the single global style sheet. -/
theorem C8_order_preserved :
    (∀ (s : List SocialLink) (css : List String) (u : String) (t : List SidebarGroup),
        ∃ c, load (document u s t css) = Except.ok c
          ∧ loadedSocial c = s ∧ loadedCustomCss c = css)
    ∧ loadedSocial astroConfig
        = [ SocialLink.mk "github" "GitHub" "https://github.com/twineline" ]
    ∧ loadedCustomCss astroConfig = [ "./src/styles/global.css" ] := by
  refine ⟨?_, rfl, rfl⟩
  intro s css u t
  exact ⟨document u s t css, rfl, loadedSocial_document u s t css,
    loadedCustomCss_document u s t css⟩

/-- C10: no explicitly listed leaf page of the loaded sidebar collides with an
autogenerated group: its slug is neither a source directory of such a group
nor that directory followed by a slash and a further path. -/
theorem C10_no_leaf_under_autogenerated_directory :
    ∀ p ∈ allLeaves (loadedSidebar astroConfig),
      ∀ d ∈ autogenerateDirectories (loadedSidebar astroConfig),
        p.slug ≠ d ∧ ∀ rest : String, p.slug ≠ d ++ "/" ++ rest := by
  intro p hp d hd
  have key : ∀ p ∈ allLeaves (loadedSidebar astroConfig),
      ∀ d ∈ autogenerateDirectories (loadedSidebar astroConfig),
        p.slug ≠ d ∧ (d.toList ++ ['/']).isPrefixOf p.slug.toList = false := by
    decide
  refine ⟨(key p hp d hd).1, ?_⟩
  intro rest hrest
  have h1 := isPrefixOf_of_eq_append p.slug d rest hrest
  rw [(key p hp d hd).2] at h1
  exact Bool.noConfusion h1

/-- C10, at the page Introduction and the directory guides. -/
theorem C10_no_leaf_under_autogenerated_directory_witness :
    "introduction" ≠ "guides" ∧ ∀ rest : String, "introduction" ≠ "guides" ++ "/" ++ rest :=
  C10_no_leaf_under_autogenerated_directory (LeafPage.mk "Introduction" "introduction")
    (by decide) "guides" (by decide)

end TwineLine
